import Mathlib

/-!
Shallow embedding of the Siren audio-translation pipeline controller
(src/websocket_server.py together with src/speech_recognizer.py,
src/translator.py, src/soundoftext_tts.py and src/settings.py).

External collaborators (Whisper transcription, the Gemini generation call,
the Sound of Text HTTP exchange, the RVC HTTP exchange) are modelled as
explicit outcome parameters: each Lean function receives the value or the
exception the collaborator produced for the one call the code makes, and
the Lean function mirrors how the Python code reacts to it.
-/

namespace Siren

/-- Python string lowercasing, as in text.lower(). -/
def pyLower (s : String) : String := String.mk (s.data.map Char.toLower)

/-- Python str.strip() on a character list: drop whitespace from both ends. -/
def stripChars (l : List Char) : List Char :=
  ((l.dropWhile Char.isWhitespace).reverse.dropWhile Char.isWhitespace).reverse

/-- Python str.strip() on strings. -/
def pyStrip (s : String) : String := String.mk (stripChars s.data)

/-- Does the list start with the given needle? Models Python str.startswith
restricted to the character lists. -/
def startsWithChars : List Char → List Char → Bool
  | [], _ => true
  | _ :: _, [] => false
  | n :: ns, h :: hs => n = h && startsWithChars ns hs

/-- Python substring containment needle in hay. -/
def containsChars (needle : List Char) : List Char → Bool
  | [] => startsWithChars needle []
  | h :: hs => startsWithChars needle (h :: hs) || containsChars needle hs

/-- Python needle in hay on strings. -/
def pyContains (hay needle : String) : Bool := containsChars needle.data hay.data

/-- Python hay.startswith(needle) on strings. -/
def pyStartsWith (hay needle : String) : Bool := startsWithChars needle.data hay.data

/-- An exception value; only the message it renders to matters here. -/
structure PyExc where
  msg : String
deriving DecidableEq, Repr

/-- Audio payloads are raw byte buffers. -/
abbrev Bytes := List Nat

/- settings.py with the default environment: TRANSLATION_TARGET_LANGUAGE
defaults to "JA".upper(), TRANSLATION_SOURCE_LANGUAGE to "EN".upper(). -/

def TRANSLATION_TARGET_LANGUAGE : String := "JA"

def TRANSLATION_SOURCE_LANGUAGE : String := "EN"

/- ------------------------------------------------------------------
speech_recognizer.py
------------------------------------------------------------------ -/

/-- One transcription segment, as iterated by the Whisper model. -/
structure Segment where
  text : String
deriving DecidableEq, Repr

/-- The info object returned next to the segments; only the language field
is read by the code. -/
structure TranscribeInfo where
  language : String
deriving DecidableEq, Repr

/-- Outcome of the one call self.model_fast_whisper.transcribe(...) inside
recognize_from_bytes: either segments plus info, or an exception raised
anywhere inside the try block. -/
inductive TranscribeResult where
  | ok (segments : List Segment) (info : TranscribeInfo)
  | exn (e : PyExc)
deriving DecidableEq, Repr

/-- The noise filter of recognize_from_bytes (speech_recognizer.py lines
109-115) applied to the stripped text: coerce the false positives
"You"/"you" (and the already empty text) to the empty string, then coerce
any text containing "MBC뉴스" or "MBC 뉴스" to the empty string. -/
def filter_transcript (text : String) : String :=
  let t1 := if text = "You" ∨ text = "you" ∨ text = "" then "" else text
  if pyContains t1 "MBC뉴스" ∨ pyContains t1 "MBC 뉴스" then "" else t1

/-- The unknown-language patch of recognize_from_bytes (lines 117-122):
language code "nn" is rewritten to "en" when text is left, and kept with
an empty transcript otherwise. -/
def nn_patch (text lang : String) : String × String :=
  if lang = "nn" then
    if text ≠ "" then (text, "en") else ("", "nn")
  else (text, lang)

/-- SpeechRecognizer.recognize_from_bytes (speech_recognizer.py lines
72-134): concatenate the segment texts, strip, run the noise filter and
the unknown-language patch, and on any exception return the safe defaults
("", "en"). -/
def recognize_from_bytes (r : TranscribeResult) : String × String :=
  match r with
  | .exn _ => ("", "en")
  | .ok segments info =>
    let text := pyStrip (segments.foldl (fun acc s => acc ++ s.text) "")
    nn_patch (filter_transcript text) info.language

/- ------------------------------------------------------------------
translator.py
------------------------------------------------------------------ -/

/-- The Gemini collaborator behind Translator.translate: for a call with
(text, target_lang, source_lang) it yields the response text, or none when
the generate_content call (or reading response.text) raises. The prompt the
code builds is a function of exactly these three arguments, so the oracle
takes them directly. -/
structure GeminiModel where
  gen : String → String → String → Option String

/-- Translator.translate (translator.py lines 50-86): empty text yields "",
an exception anywhere in the try block is caught and yields "", otherwise
the stripped response text is returned. -/
def Translator.translate (m : GeminiModel) (text target_lang source_lang : String) : String :=
  if text = "" then ""
  else
    match m.gen text target_lang source_lang with
    | some t => pyStrip t
    | none => ""

/-- Availability of the module-global translator inside the async helper
translate_text: either the lazy init failed and it stayed None, or it is
present with its Gemini collaborator. -/
inductive TranslatorAvail where
  | absent
  | present (m : GeminiModel)

/-- translate_text, the async helper at websocket_server.py lines 659-676.
This def is the binding the preprocessing stage calls: being the later
definition of the name translate_text in the module, it shadows the earlier
sync one (lines 304-321, embedded below as translate_text_sync). If the
translator is unavailable it returns the literal diagnostic string; if the
translator returns a falsy (empty) translation it returns the original
text. The translator itself never raises (it catches internally), so the
except branch returning "Translation error: ..." is unreachable in this
model. -/
def translate_text (ta : TranslatorAvail) (text source_lang target_lang : String) : String :=
  match ta with
  | .absent => "Translator not initialized"
  | .present m =>
    let translated := Translator.translate m text target_lang source_lang
    if translated = "" then text else translated

/-- translate_text, the sync helper at websocket_server.py lines 304-321,
shadowed by the async def of the same name further down the module. It
switches the translation direction: when the detected language equals the
configured target language (case-insensitively), it translates back toward
the configured source language, else toward the configured target. Returns
(translated_text, chosen_target_language_code). -/
def translate_text_sync (m : GeminiModel) (text detected_lang : String) : String × String :=
  if text = "" then ("", "")
  else
    let target :=
      if detected_lang ≠ "" ∧ pyLower detected_lang = pyLower TRANSLATION_TARGET_LANGUAGE then
        TRANSLATION_SOURCE_LANGUAGE
      else
        TRANSLATION_TARGET_LANGUAGE
    (Translator.translate m text target detected_lang, target)

/- ------------------------------------------------------------------
websocket_server.py: ASR helper
------------------------------------------------------------------ -/

/-- State of the module-global recognizer as seen by
extract_text_from_original_audio: the lazy init failed and it stayed None;
or it is ready and its transcribe call had the given outcome; or some error
escapes into the except handler of the helper. -/
inductive RecognizerState where
  | uninitialized
  | ready (r : TranscribeResult)
  | raises (e : PyExc)

/-- extract_text_from_original_audio (websocket_server.py lines 639-657):
an unavailable recognizer yields the diagnostic pair, an escaped error
yields the rendered error pair, and otherwise an empty recognition result
is replaced by the sentinel "No speech detected". -/
def extract_text_from_original_audio (rs : RecognizerState) : String × String :=
  match rs with
  | .uninitialized => ("Speech recognizer not initialized", "unknown")
  | .raises e => ("Speech recognition error: " ++ e.msg, "unknown")
  | .ready r =>
    let (result, language) := recognize_from_bytes r
    (if result = "" then "No speech detected" else result, language)

/- ------------------------------------------------------------------
soundoftext_tts.py and the RVC collaborator
------------------------------------------------------------------ -/

/-- Outcome of the one await of synthesize_soundoftext inside the
preprocessing stage: the MP3 bytes, or the RuntimeError the module raises
on any of its failure paths. -/
inductive TTSOutcome where
  | ok (audio : Bytes)
  | raises (e : PyExc)
deriving DecidableEq, Repr

/-- The HTTP response of the RVC conversion endpoint. -/
structure HttpResp where
  status : Nat
  body : Bytes
deriving DecidableEq, Repr

/-- Outcome of the RVC HTTP exchange inside apply_rvc_conversion: a
response, or an exception anywhere in the try block. -/
inductive RvcOutcome where
  | response (r : HttpResp)
  | raises (e : PyExc)
deriving DecidableEq, Repr

/-- apply_rvc_conversion (websocket_server.py lines 224-250): a 200
response returns the converted body; a non-200 response or an exception
returns the input audio unchanged. -/
def apply_rvc_conversion (audio_blob : Bytes) (target_lang : String) (o : RvcOutcome) : Bytes :=
  match o with
  | .response r => if r.status = 200 then r.body else audio_blob
  | .raises _ => audio_blob

/- ------------------------------------------------------------------
websocket_server.py: request data, results cache, stage functions
------------------------------------------------------------------ -/

/-- The request_data dict as built at admission (websocket_server.py lines
492-500 and 600-609). The start_time and the future are kept out of the
record: time values never steer control flow, and the future is modelled by
the Outcome value a stage function returns for set_result. -/
structure RequestData where
  id : String
  audio_blob : Bytes
  source_lang : String
  target_lang : String
deriving DecidableEq, Repr

/-- The success dict composed in process_rvc_stage (lines 197-206). The two
audio fields hold the raw bytes; the Python code passes them through the
injective base64 encoding just before composing the dict, so byte identity
of the raw buffers is equivalent to equality of the encoded fields. The
timing fields are omitted as pure wall-clock readings. -/
structure ResultPayload where
  original_audio_blob : Bytes
  translated_audio_blob : Bytes
  original_text : String
  translated_text : String
  detected_language : String
  request_id : String
deriving DecidableEq, Repr

/-- What a call of future.set_result delivers: the success dict, or an
error dict with its message and HTTP status. -/
inductive Outcome where
  | success (r : ResultPayload)
  | failure (error : String) (status : Nat)
deriving DecidableEq, Repr

/-- The request_data dict after the update of lines 160-166: the admission
fields plus the preprocessing stage data. -/
structure PreprocessedRequest where
  base : RequestData
  original_text : String
  translated_text : String
  detected_lang : String
  translated_audio_blob : Bytes
deriving DecidableEq, Repr

/-- How a run of process_preprocessing_stage ends: it either resolved the
future (empty recognition, or the except handler) or pushed the updated
request onto the rvc_queue. -/
inductive PreprocOutput where
  | resolved (o : Outcome)
  | enqueued (p : PreprocessedRequest)
deriving DecidableEq, Repr

/-- process_preprocessing_stage (websocket_server.py lines 132-177). The
parameter unexpected models an exception raised by any statement of the try
block other than the modelled collaborator calls (the helpers called here
catch their own collaborator failures; the one statement that raises in
the model is the synthesize_soundoftext await, folded into the same except
handler). -/
def process_preprocessing_stage (rd : RequestData) (rs : RecognizerState)
    (ta : TranslatorAvail) (tts : TTSOutcome) (unexpected : Option PyExc) : PreprocOutput :=
  match unexpected with
  | some e => .resolved (.failure ("Preprocessing Error: " ++ e.msg) 500)
  | none =>
    let (original_text, detected_lang) := extract_text_from_original_audio rs
    if original_text = "" ∨ original_text = "No speech detected" then
      .resolved (.failure "No speech detected in audio" 400)
    else
      let translated_text := translate_text ta original_text detected_lang rd.target_lang
      match tts with
      | .raises e => .resolved (.failure ("Preprocessing Error: " ++ e.msg) 500)
      | .ok audio =>
        .enqueued { base := rd, original_text := original_text,
                    translated_text := translated_text, detected_lang := detected_lang,
                    translated_audio_blob := audio }

/-- The results cache hung off convert_status: a Python dict from request
id to result. An insert prepends and a lookup takes the first hit, which
gives dict overwrite semantics. -/
abbrev ResultsCache := List (String × ResultPayload)

/-- Dict lookup. -/
def cacheLookup (c : ResultsCache) (k : String) : Option ResultPayload :=
  match c with
  | [] => none
  | (k2, v) :: rest => if k2 = k then some v else cacheLookup rest k

/-- Dict deletion, as in del results_cache[request_id]. -/
def cacheErase (c : ResultsCache) (k : String) : ResultsCache :=
  c.filter (fun kv => kv.fst ≠ k)

/-- process_rvc_stage (websocket_server.py lines 179-222). Returns the
Outcome passed to future.set_result together with the results cache after
the stage; the cache entry is written only for ids with the conv_ marker
(line 209). The parameter unexpected models an exception from any
statement of the try block; apply_rvc_conversion itself never raises. -/
def process_rvc_stage (p : PreprocessedRequest) (conv : RvcOutcome)
    (unexpected : Option PyExc) (cache : ResultsCache) : Outcome × ResultsCache :=
  match unexpected with
  | some e => (.failure ("RVC Processing Error: " ++ e.msg) 500, cache)
  | none =>
    let final_audio_blob := apply_rvc_conversion p.translated_audio_blob p.base.target_lang conv
    let result : ResultPayload :=
      { original_audio_blob := p.base.audio_blob
        translated_audio_blob := final_audio_blob
        original_text := p.original_text
        translated_text := p.translated_text
        detected_language := p.detected_lang
        request_id := p.base.id }
    let cache2 :=
      if pyStartsWith p.base.id "conv_" then (p.base.id, result) :: cache else cache
    (.success result, cache2)

/-- The response of the convert_status endpoint (websocket_server.py lines
523-559), stripped to its discriminating content. -/
inductive StatusResponse where
  | missingParam
  | completed (request_id : String) (result : ResultPayload)
  | processing (request_id : String) (queue_size : Nat)
deriving DecidableEq, Repr

/-- convert_status: pop the cache entry on a hit (lines 538-546), else
report processing with a queue-depth-derived estimate. -/
def convert_status (request_id : Option String) (cache : ResultsCache) (queue_size : Nat) :
    StatusResponse × ResultsCache :=
  match request_id with
  | none => (.missingParam, cache)
  | some rid =>
    match cacheLookup cache rid with
    | some result => (.completed rid result, cacheErase cache rid)
    | none => (.processing rid queue_size, cache)

/- ------------------------------------------------------------------
websocket_server.py: admission (process_audio / convert_new)
------------------------------------------------------------------ -/

/-- audio_processing_queue is created with maxsize 50 (line 70). -/
def queueMaxsize : Nat := 50

/-- The admission queue: an asyncio.Queue of request_data dicts, FIFO. -/
structure AdmQueue where
  items : List RequestData
deriving DecidableEq, Repr

/-- asyncio.Queue.full for a queue of positive maxsize: qsize ≥ maxsize. -/
def AdmQueue.full (q : AdmQueue) : Bool := queueMaxsize ≤ q.items.length

/-- What the admission path of process_audio (lines 484-505) and
convert_new (lines 589-614) hands back: the 503 rejection, or acceptance
with the queue size read right after the put. -/
inductive AdmissionResult where
  | rejected (status : Nat)
  | accepted (queue_size : Nat)
deriving DecidableEq, Repr

/-- The admission control shared verbatim by process_audio and convert_new:
when the queue is full, return the 503 rejection without touching the
queue; otherwise put the request (the put cannot suspend: the queue was
observed not full and no suspension point lies between the check and the
put in the cooperative model) and report the new size. -/
def admit_request (q : AdmQueue) (rd : RequestData) : AdmissionResult × AdmQueue :=
  if q.full then (.rejected 503, q)
  else
    let q2 : AdmQueue := ⟨q.items ++ [rd]⟩
    (.accepted q2.items.length, q2)

/-- A burst of submissions processed back to back with no dequeue in
between, returning each submission result oldest first. -/
def admit_burst (q : AdmQueue) : List RequestData → List AdmissionResult × AdmQueue
  | [] => ([], q)
  | rd :: rest =>
    let (res, q2) := admit_request q rd
    let (more, q3) := admit_burst q2 rest
    (res :: more, q3)

/- ------------------------------------------------------------------
websocket_server.py: the preprocessing worker loop (lines 84-106)
------------------------------------------------------------------ -/

/-- max_concurrent_preprocessing = 5 (line 51): the initial value of the
preprocessing semaphore. -/
def max_concurrent_preprocessing : Nat := 5

/-- Where the single worker task spawned by initialize_queue_system stands
in its loop body: about to await queue.get; holding a dequeued request and
about to await the semaphore; or holding the permit while it awaits
process_preprocessing_stage to completion. -/
inductive WorkerPhase where
  | idle
  | acquiring (rid : Nat)
  | processing (rid : Nat)
deriving DecidableEq, Repr

/-- State of the preprocessing scheduler: the pending admission queue (as
request ids), the free permits of preprocessing_semaphore, the one worker,
and the ids whose ASR, Translation, Synthesis chain is in flight right
now. initialize_queue_system creates exactly one
process_preprocessing_queue task (line 79), and that task awaits
process_preprocessing_stage inline inside async with preprocessing_semaphore
(lines 98-99): no task is spawned per request, so a stage can only run
while the worker itself is suspended on that await. -/
structure PreprocSchedState where
  queue : List Nat
  permits : Nat
  worker : WorkerPhase
  running : List Nat
deriving DecidableEq, Repr

/-- The suspension-point steps of the worker loop: dequeue a request;
acquire a permit when one is free, which starts the awaited stage; and the
completion of the awaited stage, which lets the worker release the permit
and return to the top of its loop. -/
inductive PreprocStep : PreprocSchedState → PreprocSchedState → Prop
  | dequeue (rid : Nat) (rest : List Nat) (sem : Nat) (run : List Nat) :
      PreprocStep ⟨rid :: rest, sem, .idle, run⟩ ⟨rest, sem, .acquiring rid, run⟩
  | acquire (q : List Nat) (sem : Nat) (rid : Nat) (run : List Nat) (h : 0 < sem) :
      PreprocStep ⟨q, sem, .acquiring rid, run⟩ ⟨q, sem - 1, .processing rid, rid :: run⟩
  | finish (q : List Nat) (sem : Nat) (rid : Nat) (run : List Nat) :
      PreprocStep ⟨q, sem, .processing rid, run⟩ ⟨q, sem + 1, .idle, run.erase rid⟩

/-- States the scheduler can reach from a given start state. -/
inductive PreprocReachable (init : PreprocSchedState) : PreprocSchedState → Prop
  | refl : PreprocReachable init init
  | step {s t : PreprocSchedState} :
      PreprocReachable init s → PreprocStep s t → PreprocReachable init t

/-- How many requests are inside their ASR, Translation, Synthesis chain
right now. -/
def inFlightPreprocessing (s : PreprocSchedState) : Nat := s.running.length

/-- The stages in flight are exactly the one the worker is awaiting: the
coupling the single inline await enforces. -/
def workerRunningInv (s : PreprocSchedState) : Prop :=
  match s.worker with
  | .processing rid => s.running = [rid]
  | _ => s.running = []

/-- Five requests queued, all five permits free, worker at the top of its
loop, nothing in flight: the configuration the claim says can drive the
in-flight count to 5. -/
def fiveQueuedInit : PreprocSchedState :=
  ⟨[1, 2, 3, 4, 5], max_concurrent_preprocessing, .idle, []⟩

/- ------------------------------------------------------------------
The end-to-end resolution trace of one admitted request
------------------------------------------------------------------ -/

/-- The future.set_result calls a preprocessing run performs: one on each
resolving branch, none when the request moves on to the rvc_queue. -/
def preprocessing_resolutions : PreprocOutput → List Outcome
  | .resolved o => [o]
  | .enqueued _ => []

/-- All future.set_result calls an admitted request experiences end to
end: those of its preprocessing run, then, exactly when the request was
forwarded to the rvc_queue, the one of its RVC run. The two worker loops
themselves never touch the future (their except handlers only log and
sleep), so these are all the resolutions there are. -/
def request_outcomes (rd : RequestData) (rs : RecognizerState) (ta : TranslatorAvail)
    (tts : TTSOutcome) (conv : RvcOutcome) (pExc cExc : Option PyExc)
    (cache : ResultsCache) : List Outcome :=
  let po := process_preprocessing_stage rd rs ta tts pExc
  preprocessing_resolutions po ++
    match po with
    | .resolved _ => []
    | .enqueued p => [(process_rvc_stage p conv cExc cache).1]

/- ------------------------------------------------------------------
Concrete fixtures for witnesses and counterexamples
------------------------------------------------------------------ -/

/-- A concrete admitted request of the process_audio flavor (ids there are
built with the req_ marker, line 481). -/
def reqFixture : RequestData :=
  { id := "req_1", audio_blob := [0, 1], source_lang := "auto", target_lang := "ja" }

/-- A concrete request after a successful preprocessing run. -/
def preFixture : PreprocessedRequest :=
  { base := reqFixture, original_text := "hello", translated_text := "hola",
    detected_lang := "en", translated_audio_blob := [7, 7, 7] }

/-- A Gemini collaborator that raises inside every generate_content call. -/
def geminiDown : GeminiModel := ⟨fun _ _ _ => none⟩

/-- A Gemini collaborator whose reply names the requested target language,
so that the direction a call took is visible in its output. -/
def geminiByTarget : GeminiModel := ⟨fun _ target _ => some ("to-" ++ target)⟩

/- ------------------------------------------------------------------
Claim theorems
------------------------------------------------------------------ -/

/-- C1: the claim says up to 5 admitted requests can run their
ASR→Translation→Synthesis chain simultaneously, the in-flight count
reaching 5 when at least 5 requests are queued. Against the code this
fails: the single process_preprocessing_queue task awaits
process_preprocessing_stage inline under the semaphore, so from the state
with five requests queued and all five permits free, every reachable
scheduler state has at most one preprocessing chain in flight — strictly
below the configured limit of 5. -/
theorem C1_preprocessing_in_flight_never_exceeds_one (s : PreprocSchedState)
    (h : PreprocReachable fiveQueuedInit s) :
    inFlightPreprocessing s ≤ 1 ∧ inFlightPreprocessing s < max_concurrent_preprocessing := by
  have key : workerRunningInv s := by
    induction h with
    | refl => simp [workerRunningInv, fiveQueuedInit]
    | step hr hstep ih =>
      cases hstep with
      | dequeue rid rest sem run => simpa [workerRunningInv] using ih
      | acquire q sem rid run hpos =>
        simp [workerRunningInv] at ih ⊢
        simp [ih]
      | finish q sem rid run =>
        simp [workerRunningInv] at ih ⊢
        simp [ih]
  rcases s with ⟨q, sem, w, run⟩
  unfold workerRunningInv at key
  unfold inFlightPreprocessing
  cases w <;> simp_all [max_concurrent_preprocessing]

/-- Witness for C1 at a concrete reachable state: after dequeuing request 1
and acquiring a permit, exactly one chain is in flight. -/
theorem C1_preprocessing_in_flight_witness :
    inFlightPreprocessing ⟨[2, 3, 4, 5], 4, .processing 1, [1]⟩ ≤ 1 ∧
    inFlightPreprocessing ⟨[2, 3, 4, 5], 4, .processing 1, [1]⟩ < max_concurrent_preprocessing :=
  C1_preprocessing_in_flight_never_exceeds_one ⟨[2, 3, 4, 5], 4, .processing 1, [1]⟩
    (.step (.step .refl (.dequeue 1 [2, 3, 4, 5] 5 []))
      (.acquire [2, 3, 4, 5] 5 1 [] (by decide)))

/-- Lemma for C2: a burst of submissions that fits into the remaining
capacity is accepted in full and lands in the queue in order. -/
theorem admit_burst_accepted (rds : List RequestData) (q : AdmQueue)
    (h : q.items.length + rds.length ≤ queueMaxsize) :
    (admit_burst q rds).2.items = q.items ++ rds ∧
    ∀ res ∈ (admit_burst q rds).1, ∃ n, res = .accepted n := by
  induction rds generalizing q with
  | nil => simp [admit_burst]
  | cons r rest ih =>
    have hfull : q.full = false := by
      simp only [AdmQueue.full, decide_eq_false_iff_not, Nat.not_le]
      simp at h
      omega
    have step : admit_request q r = (.accepted (q.items ++ [r]).length, ⟨q.items ++ [r]⟩) := by
      simp [admit_request, hfull]
    have hlen : (⟨q.items ++ [r]⟩ : AdmQueue).items.length + rest.length ≤ queueMaxsize := by
      simp at h ⊢
      omega
    obtain ⟨h2, h3⟩ := ih ⟨q.items ++ [r]⟩ hlen
    constructor
    · simp [admit_burst, step, h2]
    · intro res hres
      simp [admit_burst, step] at hres
      rcases hres with rfl | hres
      · exact ⟨_, rfl⟩
      · exact h3 res hres

/-- C2: admission control of process_audio and convert_new for the
capacity of 50. A submission made while the queue holds fewer than 50
requests is accepted and enqueued (the reply carries the new size, so no
blocking wait took place); a submission made while the queue holds 50 (or
more) requests is rejected with HTTP 503 and the queue is untouched; and
after any 50 submissions from an empty queue were all accepted, the 51st
submission made before any dequeue is rejected. -/
theorem C2_admission_capacity_control :
    (∀ (q : AdmQueue) (rd : RequestData), q.items.length < queueMaxsize →
        admit_request q rd = (.accepted (q.items.length + 1), ⟨q.items ++ [rd]⟩)) ∧
    (∀ (q : AdmQueue) (rd : RequestData), queueMaxsize ≤ q.items.length →
        admit_request q rd = (.rejected 503, q)) ∧
    (∀ (rds : List RequestData), rds.length = queueMaxsize →
        (∀ res ∈ (admit_burst ⟨[]⟩ rds).1, ∃ n, res = .accepted n) ∧
        ∀ rd, admit_request (admit_burst ⟨[]⟩ rds).2 rd =
          (.rejected 503, (admit_burst ⟨[]⟩ rds).2)) := by
  have hrej : ∀ (q : AdmQueue) (rd : RequestData), queueMaxsize ≤ q.items.length →
      admit_request q rd = (.rejected 503, q) := by
    intro q rd h
    have : q.full = true := by simpa [AdmQueue.full]
    simp [admit_request, this]
  refine ⟨?_, hrej, ?_⟩
  · intro q rd h
    have : q.full = false := by
      simp only [AdmQueue.full, decide_eq_false_iff_not, Nat.not_le]
      omega
    simp [admit_request, this]
  · intro rds hlen
    obtain ⟨h2, h3⟩ := admit_burst_accepted rds ⟨[]⟩ (by simp [hlen])
    refine ⟨h3, fun rd => hrej _ rd ?_⟩
    rw [h2]
    simp [hlen]

/-- C3: when conversion fails (a non-200 response from the RVC
collaborator, or an exception), the RVC stage still resolves the request
with a success result whose final audio is byte-identical to the
synthesized audio from the preprocessing stage. -/
theorem C3_conversion_failure_passthrough
    (p : PreprocessedRequest) (conv : RvcOutcome) (cache : ResultsCache)
    (hfail : (∃ e, conv = .raises e) ∨ ∃ r, conv = .response r ∧ r.status ≠ 200) :
    ∃ res, (process_rvc_stage p conv none cache).1 = .success res ∧
      res.translated_audio_blob = p.translated_audio_blob := by
  rcases hfail with ⟨e, rfl⟩ | ⟨r, rfl, hs⟩
  · exact ⟨_, rfl, by simp [apply_rvc_conversion]⟩
  · exact ⟨_, rfl, by simp [apply_rvc_conversion, hs]⟩

/-- Witness for C3 at a concrete failing conversion (HTTP 500). -/
theorem C3_conversion_failure_passthrough_witness :
    ∃ res, (process_rvc_stage preFixture (.response ⟨500, []⟩) none []).1 = .success res ∧
      res.translated_audio_blob = preFixture.translated_audio_blob :=
  C3_conversion_failure_passthrough preFixture (.response ⟨500, []⟩) []
    (Or.inr ⟨⟨500, []⟩, rfl, by decide⟩)

/-- C4 counterexample: the claim says a failed translation terminates the
request as Failed and the pipeline never substitutes the untranslated
original text. Against the code this fails: with a Gemini collaborator
that raises on every call, translate_text returns the original text
"hello" itself, and the preprocessing stage forwards the request to the
rvc_queue with translated_text equal to the untranslated original — no
failure is resolved. -/
theorem C4_translation_failure_counterexample :
    translate_text (.present geminiDown) "hello" "en" "ja" = "hello" ∧
    process_preprocessing_stage reqFixture (.ready (.ok [⟨"hello"⟩] ⟨"en"⟩))
        (.present geminiDown) (.ok [7]) none =
      .enqueued { base := reqFixture, original_text := "hello", translated_text := "hello",
                  detected_lang := "en", translated_audio_blob := [7] } := by
  constructor <;> decide

/-- C4 as amended: for every request whose translation step fails, the
request does not fail — when the Gemini call raises, Translator.translate
yields the empty string and translate_text silently substitutes the
untranslated original text; when the translator is unavailable, the
literal diagnostic string is substituted; the request then proceeds to
synthesis and is forwarded to the rvc_queue. -/
theorem C4_translation_failure_degrades
    (rd : RequestData) (rs : RecognizerState) (m : GeminiModel) (audio : Bytes)
    (text lang : String)
    (hex : extract_text_from_original_audio rs = (text, lang))
    (hne : text ≠ "") (hns : text ≠ "No speech detected")
    (hfail : m.gen text rd.target_lang lang = none) :
    translate_text (.present m) text lang rd.target_lang = text ∧
    translate_text .absent text lang rd.target_lang = "Translator not initialized" ∧
    process_preprocessing_stage rd rs (.present m) (.ok audio) none =
      .enqueued { base := rd, original_text := text, translated_text := text,
                  detected_lang := lang, translated_audio_blob := audio } := by
  have h1 : translate_text (.present m) text lang rd.target_lang = text := by
    simp [translate_text, Translator.translate, hne, hfail]
  refine ⟨h1, rfl, ?_⟩
  simp [process_preprocessing_stage, hex, hne, hns, h1]

/-- Witness for C4 at a concrete request whose Gemini collaborator raises
on every call. -/
theorem C4_translation_failure_degrades_witness :
    translate_text (.present geminiDown) "hello" "en" reqFixture.target_lang = "hello" ∧
    translate_text .absent "hello" "en" reqFixture.target_lang = "Translator not initialized" ∧
    process_preprocessing_stage reqFixture (.ready (.ok [⟨"hello"⟩] ⟨"en"⟩))
        (.present geminiDown) (.ok [9]) none =
      .enqueued { base := reqFixture, original_text := "hello", translated_text := "hello",
                  detected_lang := "en", translated_audio_blob := [9] } :=
  C4_translation_failure_degrades reqFixture (.ready (.ok [⟨"hello"⟩] ⟨"en"⟩))
    geminiDown [9] "hello" "en" (by decide) (by decide) (by decide) rfl

/-- C5: a request whose ASR step returns empty text is resolved as the
failure "No speech detected in audio" with status 400 — its future is
signaled with that error and the request is never forwarded to the
rvc_queue (the stage returns a resolved output, not an enqueued one),
whatever the translator and synthesis collaborators would have done. -/
theorem C5_empty_asr_resolves_failure (rd : RequestData) (r : TranscribeResult)
    (ta : TranslatorAvail) (tts : TTSOutcome)
    (h : (recognize_from_bytes r).1 = "") :
    process_preprocessing_stage rd (.ready r) ta tts none =
      .resolved (.failure "No speech detected in audio" 400) := by
  rcases hrec : recognize_from_bytes r with ⟨res, lang⟩
  rw [hrec] at h
  simp at h
  subst h
  simp [process_preprocessing_stage, extract_text_from_original_audio, hrec]

/-- Witness for C5 at a concrete recognition that returns empty text. -/
theorem C5_empty_asr_resolves_failure_witness :
    process_preprocessing_stage reqFixture (.ready (.exn ⟨"boom"⟩)) .absent (.ok []) none =
      .resolved (.failure "No speech detected in audio" 400) :=
  C5_empty_asr_resolves_failure reqFixture (.exn ⟨"boom"⟩) .absent (.ok []) (by decide)

/-- C6: the claim says the translation step compares the detected language
with the configured target language and translates back toward the
configured source when they match. Against the code this fails: that rule
lives only in the sync translate_text, which the later async def of the
same name shadows. With a collaborator whose reply names the requested
target, a request detected as "ja" (the configured target) and aimed at
target "ja" is translated toward "ja" by the pipeline, while the shadowed
helper would have chosen the configured source "EN". -/
theorem C6_translation_direction_shadowed :
    translate_text (.present geminiByTarget) "hello" "ja" "ja" = "to-ja" ∧
    translate_text_sync geminiByTarget "hello" "ja" = ("to-EN", "EN") ∧
    process_preprocessing_stage reqFixture (.ready (.ok [⟨"hello"⟩] ⟨"ja"⟩))
        (.present geminiByTarget) (.ok [7]) none =
      .enqueued { base := reqFixture, original_text := "hello", translated_text := "to-ja",
                  detected_lang := "ja", translated_audio_blob := [7] } :=
  ⟨by decide, by decide, by decide⟩

/-- C7 counterexample: the claim says both delivery paths fire for every
request that completes the conversion stage. Against the code this fails:
a completed process_audio request (id "req_1") resolves its future with
the success result, but nothing is stored in the results cache, which
stays empty. -/
theorem C7_delivery_counterexample :
    (process_rvc_stage preFixture (.response ⟨200, [1, 2]⟩) none []).1 =
      .success { original_audio_blob := [0, 1], translated_audio_blob := [1, 2],
                 original_text := "hello", translated_text := "hola",
                 detected_language := "en", request_id := "req_1" } ∧
    (process_rvc_stage preFixture (.response ⟨200, [1, 2]⟩) none []).2 = [] := by
  constructor <;> decide

/-- C7 as amended: every request that completes the conversion stage
resolves its future with the composed result; the same result is stored in
the results cache exactly when the request id starts with "conv_", and for
such ids a later poll retrieves that same result — the resolved future and
the cache entry coexist until each is consumed. -/
theorem C7_delivery_paths (p : PreprocessedRequest) (conv : RvcOutcome) (cache : ResultsCache) :
    ∃ res,
      process_rvc_stage p conv none cache =
        (.success res,
         if pyStartsWith p.base.id "conv_" then (p.base.id, res) :: cache else cache) ∧
      (pyStartsWith p.base.id "conv_" = true →
        (convert_status (some p.base.id) (process_rvc_stage p conv none cache).2 0).1 =
          .completed p.base.id res) := by
  refine ⟨_, rfl, fun h => ?_⟩
  simp [process_rvc_stage, convert_status, cacheLookup, h]

/-- C8: every admitted request reaches exactly one terminal outcome and
its future is resolved exactly once, on every path through the
preprocessing stage and the RVC stage — empty recognition, internal
recognizer failure, translator failure, synthesis failure, conversion
failure and the except handlers of both stages included. -/
theorem C8_exactly_one_resolution (rd : RequestData) (rs : RecognizerState)
    (ta : TranslatorAvail) (tts : TTSOutcome) (conv : RvcOutcome)
    (pExc cExc : Option PyExc) (cache : ResultsCache) :
    (request_outcomes rd rs ta tts conv pExc cExc cache).length = 1 := by
  unfold request_outcomes
  cases process_preprocessing_stage rd rs ta tts pExc <;> simp [preprocessing_resolutions]

/-- Lemma for C9: the rendered recognition diagnostic is never empty and
never the no-speech sentinel, so the empty-transcript check does not catch
it. -/
theorem diag_text_neq (msg : String) :
    ("Speech recognition error: " ++ msg) ≠ "" ∧
    ("Speech recognition error: " ++ msg) ≠ "No speech detected" := by
  have hbase : ("Speech recognition error: " : String).length = 26 := by decide
  have h0 : ("" : String).length = 0 := by decide
  have h18 : ("No speech detected" : String).length = 18 := by decide
  constructor <;> intro h <;> have hl := congrArg String.length h <;>
    rw [String.length_append, hbase] at hl <;> omega

/-- C9: an internal ASR failure does not fail the request. When the
recognizer raises, or cannot be initialized,
extract_text_from_original_audio yields a non-empty diagnostic string with
language "unknown"; the empty-transcript check does not catch it, so the
diagnostic itself becomes the original text, is handed to the translator,
synthesized, forwarded to the rvc_queue, and the RVC stage resolves the
request as a success carrying the diagnostic — for every translator state
and every conversion outcome. -/
theorem C9_asr_diagnostic_flows_through (rd : RequestData) (ta : TranslatorAvail)
    (audio : Bytes) (conv : RvcOutcome) (cache : ResultsCache) (e : PyExc) :
    (∃ p, process_preprocessing_stage rd (.raises e) ta (.ok audio) none = .enqueued p ∧
       p.original_text = "Speech recognition error: " ++ e.msg ∧
       p.detected_lang = "unknown" ∧
       p.translated_text =
         translate_text ta ("Speech recognition error: " ++ e.msg) "unknown" rd.target_lang ∧
       ∃ res, (process_rvc_stage p conv none cache).1 = .success res ∧
         res.original_text = "Speech recognition error: " ++ e.msg) ∧
    (∃ p, process_preprocessing_stage rd .uninitialized ta (.ok audio) none = .enqueued p ∧
       p.original_text = "Speech recognizer not initialized" ∧
       p.detected_lang = "unknown" ∧
       ∃ res, (process_rvc_stage p conv none cache).1 = .success res ∧
         res.original_text = "Speech recognizer not initialized") := by
  obtain ⟨hne, hns⟩ := diag_text_neq e.msg
  constructor
  · have hstage : process_preprocessing_stage rd (.raises e) ta (.ok audio) none =
        .enqueued { base := rd, original_text := "Speech recognition error: " ++ e.msg,
                    translated_text := translate_text ta ("Speech recognition error: " ++ e.msg)
                      "unknown" rd.target_lang,
                    detected_lang := "unknown", translated_audio_blob := audio } := by
      simp [process_preprocessing_stage, extract_text_from_original_audio, hne, hns]
    exact ⟨_, hstage, rfl, rfl, rfl, _, rfl, rfl⟩
  · have hstage : process_preprocessing_stage rd .uninitialized ta (.ok audio) none =
        .enqueued { base := rd, original_text := "Speech recognizer not initialized",
                    translated_text := translate_text ta "Speech recognizer not initialized"
                      "unknown" rd.target_lang,
                    detected_lang := "unknown", translated_audio_blob := audio } := by
      simp [process_preprocessing_stage, extract_text_from_original_audio]
    exact ⟨_, hstage, rfl, rfl, _, rfl, rfl⟩

/-- C10: recognize_from_bytes is total (the except arm returns the pair
("", "en") for every internal exception); a stripped transcript equal to
"You" or "you", or one containing "MBC뉴스" or "MBC 뉴스", is coerced to
the empty string by the noise filter, and an empty post-filter transcript
surfaces as an empty recognition result; the language code "nn" is
rewritten to "en" when filtered text remains and is kept with an empty
transcript otherwise. -/
theorem C10_recognizer_coercions :
    (∀ e, recognize_from_bytes (.exn e) = ("", "en")) ∧
    (∀ t, t = "You" ∨ t = "you" → filter_transcript t = "") ∧
    (∀ t, pyContains t "MBC뉴스" = true ∨ pyContains t "MBC 뉴스" = true →
      filter_transcript t = "") ∧
    (∀ t, t ≠ "" → nn_patch t "nn" = (t, "en")) ∧
    nn_patch "" "nn" = ("", "nn") ∧
    (∀ (segs : List Segment) (info : TranscribeInfo),
      recognize_from_bytes (.ok segs info) =
        nn_patch (filter_transcript (pyStrip (segs.foldl (fun acc s => acc ++ s.text) "")))
          info.language) ∧
    (∀ (segs : List Segment) (info : TranscribeInfo),
      filter_transcript (pyStrip (segs.foldl (fun acc s => acc ++ s.text) "")) = "" →
      (recognize_from_bytes (.ok segs info)).1 = "") := by
  refine ⟨fun e => rfl, ?_, ?_, ?_, rfl, fun segs info => rfl, ?_⟩
  · intro t h
    have hcond : t = "You" ∨ t = "you" ∨ t = "" := by tauto
    have hc1 : pyContains "" "MBC뉴스" = false := by decide
    have hc2 : pyContains "" "MBC 뉴스" = false := by decide
    simp [filter_transcript, hcond, hc1, hc2]
  · intro t h
    by_cases hcond : t = "You" ∨ t = "you" ∨ t = ""
    · have hc1 : pyContains "" "MBC뉴스" = false := by decide
      have hc2 : pyContains "" "MBC 뉴스" = false := by decide
      simp [filter_transcript, hcond, hc1, hc2]
    · simp [filter_transcript, hcond]
      intro hh1 hh2
      rcases h with hmbc | hmbc <;> simp_all
  · intro t ht
    simp [nn_patch, ht]
  · intro segs info hfil
    show (nn_patch (filter_transcript (pyStrip (segs.foldl (fun acc s => acc ++ s.text) "")))
      info.language).1 = ""
    rw [hfil]
    by_cases hl : info.language = "nn" <;> simp [nn_patch, hl]

end Siren
